import Mathlib

set_option maxRecDepth 4000

/-!
Verification of the authorization/session subsystem of the caspio-mcp-server
repository. The definitions below are a shallow embedding of the remote HTTP
server (src/unnamed/part_004, the Streamable HTTP MCP server with OAuth) and of
the tool dispatch of the local stdio variant (src/src/index.ts).

Modelling conventions:
- The three in-memory registries (sessions, pendingAuths, authCodes) are
  JavaScript Map objects with string keys; they are modelled as association
  lists with first-occurrence update, which matches Map semantics since a Map
  never holds two entries for one key.
- Date.now() timestamps are natural numbers (milliseconds).
- crypto.randomBytes-based generateId outputs are passed in as explicit string
  parameters (fresh1, freshCode, ...), since the embedding is deterministic.
- The Caspio backend collaborator (CaspioClient) is external; its connection
  test outcome is passed in as a parameter, and the command executor is
  modelled by the sequence of collaborator calls it performs.
-/

namespace CaspioMCP

/-- Session record, mirroring interface OAuthSession of part_004. -/
structure OAuthSession where
  caspioBaseUrl : String
  caspioClientId : String
  caspioClientSecret : String
  accessToken : String
  refreshToken : String
  expiresAt : Nat
  createdAt : Nat
deriving DecidableEq, Repr

/-- Pending authorization record, mirroring interface PendingAuth of part_004.
The three caspio credential fields start undefined and are attached during
submission. -/
structure PendingAuth where
  codeChallenge : String
  codeChallengeMethod : String
  redirectUri : String
  state : String
  caspioBaseUrl : Option String := none
  caspioClientId : Option String := none
  caspioClientSecret : Option String := none
  createdAt : Nat
deriving DecidableEq, Repr

/-- An authorization code entry: the value type of the authCodes Map. -/
structure AuthCode where
  sessionId : String
  expiresAt : Nat
deriving DecidableEq, Repr

/-- The process-wide mutable registries of part_004. -/
structure ServerState where
  sessions : List (String × OAuthSession)
  pendingAuths : List (String × PendingAuth)
  authCodes : List (String × AuthCode)
deriving DecidableEq, Repr

/-- Map.set: replace the (unique) entry with this key in place, else append. -/
def mapSet {α : Type} : List (String × α) → String → α → List (String × α)
  | [], k, v => [(k, v)]
  | p :: rest, k, v => if p.1 = k then (k, v) :: rest else p :: mapSet rest k v

/-- Map.delete: remove the entry with this key. -/
def mapDelete {α : Type} (m : List (String × α)) (k : String) : List (String × α) :=
  m.filter (fun p => p.1 ≠ k)

/-- JavaScript falsiness of an optional string parameter: null or empty. -/
def strFalsy : Option String → Bool
  | none => true
  | some s => s = ""

/-- JavaScript (x || d) on an optional string: d when x is null or empty. -/
def orDefault (o : Option String) (d : String) : String :=
  match o with
  | none => d
  | some s => if s = "" then d else s

/-- Models s.replace with the regex of one trailing slash: removes the final
character when it is a slash. Defined over the character list so that it
evaluates structurally. -/
def stripTrailingSlash (s : String) : String :=
  if s.data.getLast? = some '/' then ⟨s.data.dropLast⟩ else s

-- ==================== Authorize endpoint ====================

/-- Outcome of handleAuthorize: a 400 JSON error or the rendered credential
form keyed to the freshly stored pending id. -/
inductive AuthorizeResult where
  | unsupportedResponseType
  | invalidRequest
  | formPage (authId clientId redirectUri state : String)
deriving DecidableEq, Repr

/-- handleAuthorize of part_004 (lines 313 to 347). Checks response_type, then
redirect_uri, then stores a PendingAuth under a fresh id and renders the
credential form. -/
def handleAuthorize (st : ServerState)
    (responseType clientId redirectUri state codeChallenge codeChallengeMethod : Option String)
    (freshAuthId : String) (now : Nat) : AuthorizeResult × ServerState :=
  if responseType ≠ some "code" then
    (.unsupportedResponseType, st)
  else if strFalsy redirectUri then
    (.invalidRequest, st)
  else
    let pending : PendingAuth :=
      { codeChallenge := codeChallenge.getD ""
        codeChallengeMethod := orDefault codeChallengeMethod "plain"
        redirectUri := redirectUri.getD ""
        state := state.getD ""
        createdAt := now }
    (.formPage freshAuthId (orDefault clientId "") (redirectUri.getD "") (state.getD ""),
     { st with pendingAuths := mapSet st.pendingAuths freshAuthId pending })

-- ==================== Submission endpoint ====================

/-- Outcome of the live connectivity test performed through CaspioClient:
testConnection resolved true, resolved false, or the whole attempt threw. -/
inductive ConnResult where
  | connected
  | notConnected
  | threw (msg : String)
deriving DecidableEq, Repr

/-- Outcome of handleAuthorizeSubmit: 400 invalid_request JSON, the re-rendered
form with an error banner, or the 302 redirect carrying code and state. -/
inductive SubmitResult where
  | invalidRequest
  | formError (authId msg : String)
  | redirect (redirectUri code : String) (state : Option String)
deriving DecidableEq, Repr

/-- handleAuthorizeSubmit of part_004 (lines 352 to 427). Validates the pending
id and the three credential fields, runs the live connection test, then creates
the session (tokens unset), mints the single-use code, deletes the pending
record and redirects. freshCode and freshSessionId stand for the two generateId
calls. -/
def handleAuthorizeSubmit (st : ServerState)
    (authId caspioBaseUrlRaw caspioClientId caspioClientSecret : Option String)
    (conn : ConnResult) (freshCode freshSessionId : String) (now : Nat) :
    SubmitResult × ServerState :=
  let caspioBaseUrl := caspioBaseUrlRaw.map stripTrailingSlash
  match authId with
  | none => (.invalidRequest, st)
  | some aid =>
    if aid = "" then (.invalidRequest, st)
    else match List.lookup aid st.pendingAuths with
    | none => (.invalidRequest, st)
    | some pending0 =>
      if strFalsy caspioBaseUrl || strFalsy caspioClientId || strFalsy caspioClientSecret then
        (.formError aid "Please fill in all fields", st)
      else match conn with
      | .notConnected =>
          (.formError aid "Failed to connect to Caspio. Please check your credentials.", st)
      | .threw msg => (.formError aid ("Connection failed: " ++ msg), st)
      | .connected =>
        let burl := caspioBaseUrl.getD ""
        let cid := caspioClientId.getD ""
        let csec := caspioClientSecret.getD ""
        let pending := { pending0 with
          caspioBaseUrl := some burl
          caspioClientId := some cid
          caspioClientSecret := some csec }
        let session : OAuthSession :=
          { caspioBaseUrl := burl
            caspioClientId := cid
            caspioClientSecret := csec
            accessToken := ""
            refreshToken := ""
            expiresAt := now + 86400000
            createdAt := now }
        let st1 := { st with
          pendingAuths := mapSet st.pendingAuths aid pending
          sessions := mapSet st.sessions freshSessionId session }
        let st2 := { st1 with
          authCodes := mapSet st1.authCodes freshCode ⟨freshSessionId, now + 600000⟩ }
        let st3 := { st2 with pendingAuths := mapDelete st2.pendingAuths aid }
        (.redirect pending.redirectUri freshCode
          (if pending.state ≠ "" then some pending.state else none), st3)

-- ==================== Token endpoint ====================

/-- Outcome of handleToken: the token JSON or one of the OAuth errors. -/
inductive TokenResult where
  | ok (accessToken : String) (tokenType : String) (expiresIn : Nat)
       (refreshToken : String) (scope : String)
  | invalidGrant (desc : String)
  | invalidRequest (desc : String)
  | unsupportedGrantType
deriving DecidableEq, Repr

/-- The linear scan of the refresh_token grant: first session whose stored
refresh token equals the presented one. -/
def findSessionByRefreshToken (sessions : List (String × OAuthSession)) (rt : String) :
    Option (String × OAuthSession) :=
  sessions.find? (fun p => p.2.refreshToken = rt)

/-- handleToken of part_004 (lines 433 to 529). Note that codeVerifier is read
from the request body exactly as in the source but never used afterwards: the
stored PKCE challenge is not checked. fresh1 and fresh2 stand for the two
generateId calls of the taken branch. -/
def handleToken (st : ServerState)
    (grantType code codeVerifier refreshTokenParam : Option String)
    (now : Nat) (fresh1 fresh2 : String) : TokenResult × ServerState :=
  if grantType = some "authorization_code" then
    match code with
    | none => (.invalidGrant "Invalid or expired code", st)
    | some c =>
      if c = "" then (.invalidGrant "Invalid or expired code", st)
      else match List.lookup c st.authCodes with
      | none => (.invalidGrant "Invalid or expired code", st)
      | some codeData =>
        if codeData.expiresAt < now then
          (.invalidGrant "Code expired", { st with authCodes := mapDelete st.authCodes c })
        else match List.lookup codeData.sessionId st.sessions with
        | none => (.invalidGrant "Session not found", st)
        | some session =>
          let session' := { session with
            accessToken := fresh1
            refreshToken := fresh2
            expiresAt := now + 86400000 }
          let st1 := { st with sessions := mapSet st.sessions codeData.sessionId session' }
          let st2 := { st1 with authCodes := mapDelete st1.authCodes c }
          (.ok fresh1 "Bearer" 86400 fresh2 "caspio:read caspio:write caspio:admin", st2)
  else if grantType = some "refresh_token" then
    match refreshTokenParam with
    | none => (.invalidRequest "refresh_token required", st)
    | some rt =>
      if rt = "" then (.invalidRequest "refresh_token required", st)
      else match findSessionByRefreshToken st.sessions rt with
      | none => (.invalidGrant "Invalid refresh token", st)
      | some (sid, session) =>
        let session' := { session with
          accessToken := fresh1
          refreshToken := fresh2
          expiresAt := now + 86400000 }
        (.ok fresh1 "Bearer" 86400 fresh2 "caspio:read caspio:write caspio:admin",
         { st with sessions := mapSet st.sessions sid session' })
  else
    (.unsupportedGrantType, st)

-- ==================== Dispatch gate ====================

/-- The linear scan of the dispatch gate over stored access tokens. -/
def resolveAccessToken (sessions : List (String × OAuthSession)) (token : String) :
    Option OAuthSession :=
  (sessions.find? (fun p => p.2.accessToken = token)).map (fun p => p.2)

/-- getSessionFromRequest of part_004 (lines 533 to 546): bearer header parsing
followed by an exact-match scan. There is no expiry or non-emptiness check. -/
def getSessionFromRequest (sessions : List (String × OAuthSession))
    (authHeader : Option String) : Option OAuthSession :=
  match authHeader with
  | none => none
  | some h =>
    if h.startsWith "Bearer " then resolveAccessToken sessions (h.drop 7)
    else none

-- ==================== Janitor ====================

/-- The periodic sweep of part_004 (lines 170 to 193): sessions, pending
authorizations (10-minute TTL from createdAt) and codes are expired
independently. -/
def janitorSweep (st : ServerState) (now : Nat) : ServerState :=
  { sessions := st.sessions.filter (fun p => ¬ p.2.expiresAt < now)
    pendingAuths := st.pendingAuths.filter (fun p => ¬ p.2.createdAt + 600000 < now)
    authCodes := st.authCodes.filter (fun p => ¬ p.2.expiresAt < now) }

-- ==================== Session persistence ====================

/-- The JSON documents involved in session persistence. -/
inductive Json where
  | jstr (s : String)
  | jnum (n : Nat)
  | jobj (fields : List (String × Json))

/-- JSON.stringify of one session record, as laid out by saveSessions. -/
def encodeSession (s : OAuthSession) : Json :=
  .jobj [("caspioBaseUrl", .jstr s.caspioBaseUrl),
         ("caspioClientId", .jstr s.caspioClientId),
         ("caspioClientSecret", .jstr s.caspioClientSecret),
         ("accessToken", .jstr s.accessToken),
         ("refreshToken", .jstr s.refreshToken),
         ("expiresAt", .jnum s.expiresAt),
         ("createdAt", .jnum s.createdAt)]

/-- Field access on a parsed JSON object, string valued. -/
def jGetStr (j : Json) (k : String) : Option String :=
  match j with
  | .jobj fields =>
    match List.lookup k fields with
    | some (.jstr s) => some s
    | _ => none
  | _ => none

/-- Field access on a parsed JSON object, number valued. -/
def jGetNum (j : Json) (k : String) : Option Nat :=
  match j with
  | .jobj fields =>
    match List.lookup k fields with
    | some (.jnum n) => some n
    | _ => none
  | _ => none

/-- Reading one session record back from the parsed JSON document. -/
def decodeSession (j : Json) : Option OAuthSession :=
  match jGetStr j "caspioBaseUrl", jGetStr j "caspioClientId",
        jGetStr j "caspioClientSecret", jGetStr j "accessToken",
        jGetStr j "refreshToken", jGetNum j "expiresAt", jGetNum j "createdAt" with
  | some b, some ci, some cs, some a, some r, some e, some c =>
    some { caspioBaseUrl := b, caspioClientId := ci, caspioClientSecret := cs,
           accessToken := a, refreshToken := r, expiresAt := e, createdAt := c }
  | _, _, _, _, _, _, _ => none

/-- saveSessions of part_004 (lines 133 to 145): the whole in-memory map is
rewritten as one JSON object keyed by session id. -/
def saveSessions (sessions : List (String × OAuthSession)) : Json :=
  .jobj (sessions.map (fun p => (p.1, encodeSession p.2)))

/-- loadSessions of part_004 (lines 102 to 128): every entry of the parsed
document whose expiresAt is strictly in the future is loaded; expired entries
are skipped. -/
def loadSessions (doc : Json) (now : Nat) : List (String × OAuthSession) :=
  match doc with
  | .jobj entries =>
    entries.filterMap (fun p =>
      match decodeSession p.2 with
      | some s => if s.expiresAt > now then some (p.1, s) else none
      | none => none)
  | _ => []

-- ==================== Command executor ====================

/-- The arguments object passed to a tool call. Absent properties are none.
Structured JSON payloads (records, column lists, user objects) are opaque to
the executor and modelled as unit values. -/
structure ToolArgs where
  tableName : Option String := none
  fieldName : Option String := none
  name : Option String := none
  note : Option String := none
  whereClause : Option String := none
  filePath : Option String := none
  folderPath : Option String := none
  viewName : Option String := none
  appName : Option String := none
  taskName : Option String := none
  directoryName : Option String := none
  externalKey : Option String := none
  username : Option String := none
  password : Option String := none
  select : Option String := none
  orderBy : Option String := none
  groupBy : Option String := none
  limit : Option Nat := none
  pageNumber : Option Nat := none
  pageSize : Option Nat := none
  confirm : Option Bool := none
  record : Option Unit := none
  records : Option Unit := none
  updates : Option Unit := none
  field : Option Unit := none
  columns : Option Unit := none
  user : Option Unit := none
deriving DecidableEq, Repr

/-- One invocation of the CaspioClient backend collaborator, named after the
client method, carrying the forwarded identifier arguments. -/
inductive BackendCall where
  | listTables
  | getTableDefinition (tableName : Option String)
  | getTableFields (tableName : Option String)
  | createTable (name note : Option String)
  | deleteTable (tableName : Option String)
  | addField (tableName : Option String)
  | deleteField (tableName fieldName : Option String)
  | getRecords (tableName : Option String)
  | createRecord (tableName : Option String)
  | createRecords (tableName : Option String)
  | updateRecords (tableName whereClause : Option String)
  | deleteRecords (tableName whereClause : Option String)
  | listViews
  | getViewDefinition (viewName : Option String)
  | getViewRecords (viewName : Option String)
  | listApplications
  | getApplication (appName : Option String)
  | listFiles (folderPath : String)
  | getFileMetadata (filePath : Option String)
  | deleteFile (filePath : Option String)
  | listTasks
  | getTask (taskName : Option String)
  | runTask (taskName : Option String)
  | testConnection
  | getAccountSummary
  | listDirectories
  | getDirectory (directoryName : Option String)
  | listDirectoryUsers (directoryName : Option String)
  | getDirectoryUser (directoryName externalKey : Option String)
  | createDirectoryUser (directoryName : Option String)
  | updateDirectoryUser (directoryName externalKey : Option String)
  | deleteDirectoryUser (directoryName externalKey : Option String)
  | activateDirectoryUser (directoryName externalKey : Option String)
  | deactivateDirectoryUser (directoryName externalKey : Option String)
  | authenticateDirectoryUser (directoryName username : Option String)
deriving DecidableEq, Repr

deriving instance DecidableEq for Except

/-- What one executeTool invocation does: the backend collaborator calls it
performs, in order, and whether it returns a wrapped result or throws. The
payload of a successful result is built from the opaque collaborator return
values and is not tracked. -/
structure ExecOutcome where
  calls : List BackendCall
  result : Except String Unit
deriving DecidableEq, Repr

/-- The message of the confirmation guard throw, identical in both variants. -/
def notConfirmedMsg : String := "Deletion not confirmed. Set confirm=true to proceed."

/-- executeTool of part_004 (lines 1089 to 1218), the remote server catalog.
Each destructive case checks args.confirm for truthiness before the
collaborator call; with confirm absent or false it throws without calling. -/
def executeToolRemote (name : String) (args : ToolArgs) : ExecOutcome :=
  if name = "caspio_list_tables" then ⟨[.listTables], .ok ()⟩
  else if name = "caspio_get_table_schema" then ⟨[.getTableDefinition args.tableName], .ok ()⟩
  else if name = "caspio_create_table" then ⟨[.createTable args.name args.note], .ok ()⟩
  else if name = "caspio_delete_table" then
    if args.confirm ≠ some true then ⟨[], .error notConfirmedMsg⟩
    else ⟨[.deleteTable args.tableName], .ok ()⟩
  else if name = "caspio_add_field" then ⟨[.addField args.tableName], .ok ()⟩
  else if name = "caspio_delete_field" then
    if args.confirm ≠ some true then ⟨[], .error notConfirmedMsg⟩
    else ⟨[.deleteField args.tableName args.fieldName], .ok ()⟩
  else if name = "caspio_get_records" then ⟨[.getRecords args.tableName], .ok ()⟩
  else if name = "caspio_create_record" then ⟨[.createRecord args.tableName], .ok ()⟩
  else if name = "caspio_create_records" then ⟨[.createRecords args.tableName], .ok ()⟩
  else if name = "caspio_update_records" then
    ⟨[.updateRecords args.tableName args.whereClause], .ok ()⟩
  else if name = "caspio_delete_records" then
    if args.confirm ≠ some true then ⟨[], .error notConfirmedMsg⟩
    else ⟨[.deleteRecords args.tableName args.whereClause], .ok ()⟩
  else if name = "caspio_list_views" then ⟨[.listViews], .ok ()⟩
  else if name = "caspio_get_view_schema" then ⟨[.getViewDefinition args.viewName], .ok ()⟩
  else if name = "caspio_get_view_records" then ⟨[.getViewRecords args.viewName], .ok ()⟩
  else if name = "caspio_list_applications" then ⟨[.listApplications], .ok ()⟩
  else if name = "caspio_get_application" then ⟨[.getApplication args.appName], .ok ()⟩
  else if name = "caspio_list_files" then ⟨[.listFiles (args.folderPath.getD "/")], .ok ()⟩
  else if name = "caspio_get_file_metadata" then ⟨[.getFileMetadata args.filePath], .ok ()⟩
  else if name = "caspio_delete_file" then
    if args.confirm ≠ some true then ⟨[], .error notConfirmedMsg⟩
    else ⟨[.deleteFile args.filePath], .ok ()⟩
  else if name = "caspio_list_tasks" then ⟨[.listTasks], .ok ()⟩
  else if name = "caspio_get_task" then ⟨[.getTask args.taskName], .ok ()⟩
  else if name = "caspio_run_task" then ⟨[.runTask args.taskName], .ok ()⟩
  else if name = "caspio_test_connection" then ⟨[.testConnection], .ok ()⟩
  else if name = "caspio_get_account_summary" then ⟨[.getAccountSummary], .ok ()⟩
  else ⟨[], .error ("Unknown tool: " ++ name)⟩

/-- executeTool of src/src/index.ts (lines 908 to 1107), the local stdio
variant. It additionally covers the identity-directory catalog, including the
guarded caspio_delete_directory_user. -/
def executeToolLocal (name : String) (args : ToolArgs) : ExecOutcome :=
  if name = "caspio_list_tables" then ⟨[.listTables], .ok ()⟩
  else if name = "caspio_get_table_schema" then
    ⟨[.getTableDefinition args.tableName, .getTableFields args.tableName], .ok ()⟩
  else if name = "caspio_create_table" then ⟨[.createTable args.name args.note], .ok ()⟩
  else if name = "caspio_delete_table" then
    if args.confirm ≠ some true then ⟨[], .error notConfirmedMsg⟩
    else ⟨[.deleteTable args.tableName], .ok ()⟩
  else if name = "caspio_add_field" then ⟨[.addField args.tableName], .ok ()⟩
  else if name = "caspio_delete_field" then
    if args.confirm ≠ some true then ⟨[], .error notConfirmedMsg⟩
    else ⟨[.deleteField args.tableName args.fieldName], .ok ()⟩
  else if name = "caspio_get_records" then ⟨[.getRecords args.tableName], .ok ()⟩
  else if name = "caspio_create_record" then ⟨[.createRecord args.tableName], .ok ()⟩
  else if name = "caspio_create_records" then ⟨[.createRecords args.tableName], .ok ()⟩
  else if name = "caspio_update_records" then
    ⟨[.updateRecords args.tableName args.whereClause], .ok ()⟩
  else if name = "caspio_delete_records" then
    if args.confirm ≠ some true then ⟨[], .error notConfirmedMsg⟩
    else ⟨[.deleteRecords args.tableName args.whereClause], .ok ()⟩
  else if name = "caspio_list_views" then ⟨[.listViews], .ok ()⟩
  else if name = "caspio_get_view_schema" then ⟨[.getViewDefinition args.viewName], .ok ()⟩
  else if name = "caspio_get_view_records" then ⟨[.getViewRecords args.viewName], .ok ()⟩
  else if name = "caspio_list_applications" then ⟨[.listApplications], .ok ()⟩
  else if name = "caspio_get_application" then ⟨[.getApplication args.appName], .ok ()⟩
  else if name = "caspio_list_files" then ⟨[.listFiles (args.folderPath.getD "/")], .ok ()⟩
  else if name = "caspio_get_file_metadata" then ⟨[.getFileMetadata args.filePath], .ok ()⟩
  else if name = "caspio_delete_file" then
    if args.confirm ≠ some true then ⟨[], .error notConfirmedMsg⟩
    else ⟨[.deleteFile args.filePath], .ok ()⟩
  else if name = "caspio_list_tasks" then ⟨[.listTasks], .ok ()⟩
  else if name = "caspio_get_task" then ⟨[.getTask args.taskName], .ok ()⟩
  else if name = "caspio_run_task" then ⟨[.runTask args.taskName], .ok ()⟩
  else if name = "caspio_list_directories" then ⟨[.listDirectories], .ok ()⟩
  else if name = "caspio_get_directory" then ⟨[.getDirectory args.directoryName], .ok ()⟩
  else if name = "caspio_list_directory_users" then
    ⟨[.listDirectoryUsers args.directoryName], .ok ()⟩
  else if name = "caspio_get_directory_user" then
    ⟨[.getDirectoryUser args.directoryName args.externalKey], .ok ()⟩
  else if name = "caspio_create_directory_user" then
    ⟨[.createDirectoryUser args.directoryName], .ok ()⟩
  else if name = "caspio_update_directory_user" then
    ⟨[.updateDirectoryUser args.directoryName args.externalKey], .ok ()⟩
  else if name = "caspio_delete_directory_user" then
    if args.confirm ≠ some true then ⟨[], .error notConfirmedMsg⟩
    else ⟨[.deleteDirectoryUser args.directoryName args.externalKey], .ok ()⟩
  else if name = "caspio_activate_directory_user" then
    ⟨[.activateDirectoryUser args.directoryName args.externalKey], .ok ()⟩
  else if name = "caspio_deactivate_directory_user" then
    ⟨[.deactivateDirectoryUser args.directoryName args.externalKey], .ok ()⟩
  else if name = "caspio_authenticate_directory_user" then
    ⟨[.authenticateDirectoryUser args.directoryName args.username], .ok ()⟩
  else if name = "caspio_test_connection" then ⟨[.testConnection], .ok ()⟩
  else if name = "caspio_get_account_summary" then ⟨[.getAccountSummary], .ok ()⟩
  else ⟨[], .error ("Unknown tool: " ++ name)⟩

/-- The destructive operations of the remote catalog: table, field, record-set
and file deletion. -/
def destructiveToolsRemote : List String :=
  ["caspio_delete_table", "caspio_delete_field", "caspio_delete_records", "caspio_delete_file"]

/-- The destructive operations of the local catalog: the remote ones plus
directory-user deletion. -/
def destructiveToolsLocal : List String :=
  destructiveToolsRemote ++ ["caspio_delete_directory_user"]

-- ==================== MCP protocol handler ====================

/-- The POST body of a protocol request, after the three-way classification of
handleMcpRequest: empty, unparsable JSON, or a parsed JSON-RPC request with its
id and method name. -/
inductive McpBody where
  | empty
  | unparsable
  | request (id method : String)
deriving DecidableEq, Repr

/-- A value thrown by the method handler, ultimately by the CaspioClient
collaborator. An Error instance carries its message together with internals
(stack trace and any further detail) that must never surface; anything else
thrown carries no usable message. -/
inductive ThrownValue where
  | errorObj (message internals : String)
  | nonError
deriving DecidableEq, Repr

/-- The message selection of the catch blocks: error instanceof Error gives
error.message, anything else the fixed fallback. -/
def thrownMessage : ThrownValue → String
  | .errorObj m _ => m
  | .nonError => "Internal error"

/-- The HTTP response of the protocol endpoint, by shape. -/
inductive McpResponse where
  | serverInfo
  | parseErr
  | okResult (id : String)
  | rpcError (id : String) (code : Int) (message : String)
  | unauthorized
deriving DecidableEq, Repr

/-- HTTP status attached to each response shape in part_004. -/
def statusOf : McpResponse → Nat
  | .serverInfo => 200
  | .parseErr => 400
  | .okResult _ => 200
  | .rpcError _ _ _ => 200
  | .unauthorized => 401

/-- The allow-list of methods executable without a bearer token. -/
def unauthenticatedMethods : List String :=
  ["initialize", "tools/list", "notifications/initialized", "resources/list", "resources/read"]

/-- handleMcpRequest of part_004 (lines 548 to 644). methodOutcome stands for
what the dispatched method handler resolves or throws; in the authenticated
branch that is handleMcpMethodAuthenticated running against the per-session
CaspioClient. -/
def handleMcpRequest (st : ServerState) (authHeader : Option String) (body : McpBody)
    (methodOutcome : Except ThrownValue Unit) : McpResponse :=
  match body with
  | .empty => .serverInfo
  | .unparsable => .parseErr
  | .request id m =>
    if m ∈ unauthenticatedMethods then
      match methodOutcome with
      | .ok _ => .okResult id
      | .error e => .rpcError id (-32603) (thrownMessage e)
    else
      match getSessionFromRequest st.sessions authHeader with
      | none => .unauthorized
      | some _ =>
        match methodOutcome with
        | .ok _ => .okResult id
        | .error e => .rpcError id (-32603) (thrownMessage e)

-- ==================== Operations as one step relation ====================

/-- One state-mutating request of the authorization subsystem, with the
nondeterministic inputs (fresh random ids, clock, collaborator outcome) made
explicit. -/
inductive ServerOp where
  | authorizeOp (responseType clientId redirectUri state codeChallenge
      codeChallengeMethod : Option String) (freshAuthId : String) (now : Nat)
  | submitOp (authId caspioBaseUrl caspioClientId caspioClientSecret : Option String)
      (conn : ConnResult) (freshCode freshSessionId : String) (now : Nat)
  | tokenOp (grantType code codeVerifier refreshTokenParam : Option String)
      (now : Nat) (fresh1 fresh2 : String)
  | sweepOp (now : Nat)

/-- State effect of one operation. -/
def applyOp (st : ServerState) : ServerOp → ServerState
  | .authorizeOp rt cid ru s cc ccm fid now =>
    (handleAuthorize st rt cid ru s cc ccm fid now).2
  | .submitOp aid burl cid csec conn fc fs now =>
    (handleAuthorizeSubmit st aid burl cid csec conn fc fs now).2
  | .tokenOp gt c cv rt now f1 f2 =>
    (handleToken st gt c cv rt now f1 f2).2
  | .sweepOp now => janitorSweep st now

/-- Freshness of the random 256-bit tokens minted by an operation: a freshly
generated access token collides with no access token already stored. This is
the property crypto.randomBytes(32) delivers with overwhelming probability. -/
def opFresh (st : ServerState) : ServerOp → Prop
  | .tokenOp _ _ _ _ _ f1 _ => ∀ p ∈ st.sessions, f1 ≠ p.2.accessToken
  | _ => True

/-- The uniqueness invariant the code actually maintains: two distinct live
sessions can share an access token value only when that value is the empty
placeholder of a session still awaiting its token exchange. -/
def UniqueLiveTokens (sessions : List (String × OAuthSession)) : Prop :=
  sessions.Pairwise (fun p q => p.2.accessToken = q.2.accessToken → p.2.accessToken = "")

/-- The uniqueness property as claimed: all live sessions carry pairwise
distinct access token values. -/
def UniqueTokensClaimed (sessions : List (String × OAuthSession)) : Prop :=
  sessions.Pairwise (fun p q => p.2.accessToken ≠ q.2.accessToken)

-- ==================== Association list lemmas ====================

theorem lookup_mapSet_self {α : Type} (m : List (String × α)) (k : String) (v : α) :
    List.lookup k (mapSet m k v) = some v := by
  induction m with
  | nil => simp [mapSet, List.lookup]
  | cons p rest ih =>
    by_cases h : p.1 = k
    · simp [mapSet, h, List.lookup]
    · have hne : (k == p.1) = false := by
        simp [beq_eq_false_iff_ne]
        exact fun he => h he.symm
      simp [mapSet, h, List.lookup, hne, ih]

theorem lookup_mapSet_ne {α : Type} (m : List (String × α)) (k k' : String) (v : α)
    (h : k' ≠ k) : List.lookup k' (mapSet m k v) = List.lookup k' m := by
  have h0 : (k' == k) = false := by simp [beq_eq_false_iff_ne, h]
  induction m with
  | nil => simp [mapSet, List.lookup, h0]
  | cons p rest ih =>
    by_cases hp : p.1 = k
    · have h1 : (k' == k) = false := by simp [beq_eq_false_iff_ne, h]
      have h2 : (k' == p.1) = false := by
        simp [beq_eq_false_iff_ne]
        exact fun he => h (he.trans hp)
      simp [mapSet, hp, List.lookup, h1, h2]
    · simp only [mapSet, if_neg hp]
      by_cases hk : k' = p.1
      · simp [List.lookup, hk]
      · have h2 : (k' == p.1) = false := by simp [beq_eq_false_iff_ne, hk]
        simp [List.lookup, h2, ih]

theorem lookup_mapDelete_self {α : Type} (m : List (String × α)) (k : String) :
    List.lookup k (mapDelete m k) = none := by
  induction m with
  | nil => simp [mapDelete, List.lookup]
  | cons p rest ih =>
    simp only [mapDelete, List.filter_cons]
    by_cases h : p.1 = k
    · have hd : decide (p.1 ≠ k) = false := by simp [h]
      rw [hd]
      simpa [mapDelete] using ih
    · have hd : decide (p.1 ≠ k) = true := by simp [h]
      rw [hd]
      have hne : (k == p.1) = false := by
        simp [beq_eq_false_iff_ne]
        exact fun he => h he.symm
      simp only [List.lookup, hne]
      simpa [mapDelete] using ih

theorem mem_mapSet {α : Type} {m : List (String × α)} {k : String} {v : α}
    {p : String × α} (h : p ∈ mapSet m k v) : p = (k, v) ∨ p ∈ m := by
  induction m with
  | nil => simpa [mapSet] using h
  | cons q rest ih =>
    by_cases hq : q.1 = k
    · simp only [mapSet, if_pos hq, List.mem_cons] at h
      rcases h with h | h
      · exact Or.inl h
      · exact Or.inr (List.mem_cons_of_mem _ h)
    · simp only [mapSet, if_neg hq, List.mem_cons] at h
      rcases h with h | h
      · exact Or.inr (h ▸ List.mem_cons_self _ _)
      · rcases ih h with h | h
        · exact Or.inl h
        · exact Or.inr (List.mem_cons_of_mem _ h)

theorem mem_mapSet_of_keysNodup {α : Type} {m : List (String × α)} {k : String} {v : α}
    {p : String × α} (hnd : (m.map Prod.fst).Nodup) (h : p ∈ mapSet m k v) :
    p = (k, v) ∨ (p ∈ m ∧ p.1 ≠ k) := by
  induction m with
  | nil => simpa [mapSet] using h
  | cons q rest ih =>
    simp only [List.map_cons, List.nodup_cons] at hnd
    by_cases hq : q.1 = k
    · simp only [mapSet, if_pos hq, List.mem_cons] at h
      rcases h with h | h
      · exact Or.inl h
      · refine Or.inr ⟨List.mem_cons_of_mem _ h, ?_⟩
        intro hk
        refine hnd.1 ?_
        rw [hq, ← hk]
        exact List.mem_map_of_mem Prod.fst h
    · simp only [mapSet, if_neg hq, List.mem_cons] at h
      rcases h with h | h
      · exact Or.inr ⟨h ▸ List.mem_cons_self _ _, h ▸ hq⟩
      · rcases ih hnd.2 h with h | ⟨h1, h2⟩
        · exact Or.inl h
        · exact Or.inr ⟨List.mem_cons_of_mem _ h1, h2⟩

theorem lookup_filter_of_kept {α : Type} {m : List (String × α)} {k : String} {v : α}
    {f : String × α → Bool} (h : List.lookup k m = some v) (hf : f (k, v) = true) :
    List.lookup k (m.filter f) = some v := by
  induction m with
  | nil => simp [List.lookup] at h
  | cons p rest ih =>
    by_cases hk : k = p.1
    · have hbeq : (k == p.1) = true := by simp [hk]
      simp only [List.lookup, hbeq] at h
      have hp : p = (k, v) := by
        obtain ⟨p1, p2⟩ := p
        simp at h hk
        simp [hk, h]
      subst hp
      simp [List.filter_cons, hf, List.lookup]
    · have hbeq : (k == p.1) = false := by simp [beq_eq_false_iff_ne, hk]
      simp only [List.lookup, hbeq] at h
      simp only [List.filter_cons]
      by_cases hfp : f p = true
      · simp [hfp, List.lookup, hbeq, ih h]
      · simp [Bool.not_eq_true] at hfp
        simp [hfp, ih h]

theorem pairwise_mapSet {α : Type} {R : (String × α) → (String × α) → Prop}
    {m : List (String × α)} {k : String} {v : α}
    (hm : m.Pairwise R) (hv : ∀ p ∈ m, R (k, v) p ∧ R p (k, v)) :
    (mapSet m k v).Pairwise R := by
  induction m with
  | nil => simp [mapSet]
  | cons q rest ih =>
    rw [List.pairwise_cons] at hm
    by_cases hq : q.1 = k
    · simp only [mapSet, if_pos hq]
      rw [List.pairwise_cons]
      exact ⟨fun p hp => (hv p (List.mem_cons_of_mem _ hp)).1, hm.2⟩
    · simp only [mapSet, if_neg hq]
      rw [List.pairwise_cons]
      refine ⟨fun p hp => ?_, ih hm.2 (fun p hp => hv p (List.mem_cons_of_mem _ hp))⟩
      rcases mem_mapSet hp with h | h
      · exact h ▸ (hv q (List.mem_cons_self _ _)).2
      · exact hm.1 p h

-- ==================== Bearer header parsing lemmas ====================

theorem substrEq_loop_common (rest : List Char) : ∀ (cs t1 t2 : List Char),
    String.substrEq.loop ⟨cs ++ (rest ++ t1)⟩ ⟨cs ++ (rest ++ t2)⟩
      ⟨String.utf8Len cs⟩ ⟨String.utf8Len cs⟩ ⟨String.utf8Len cs + String.utf8Len rest⟩
      = true := by
  induction rest with
  | nil =>
    intro cs t1 t2
    rw [String.substrEq.loop]
    simp
  | cons c rest ih =>
    intro cs t1 t2
    rw [String.substrEq.loop]
    have hlt : String.utf8Len cs < String.utf8Len cs + String.utf8Len (c :: rest) := by
      have h1 := Char.utf8Size_pos c
      simp only [String.utf8Len_cons]
      omega
    have hget1 : (⟨cs ++ ((c :: rest) ++ t1)⟩ : String).get ⟨String.utf8Len cs⟩ = c := by
      have h : cs ++ ((c :: rest) ++ t1) = cs ++ (c :: (rest ++ t1)) := by simp
      rw [h, String.get_of_valid]
      rfl
    have hget2 : (⟨cs ++ ((c :: rest) ++ t2)⟩ : String).get ⟨String.utf8Len cs⟩ = c := by
      have h : cs ++ ((c :: rest) ++ t2) = cs ++ (c :: (rest ++ t2)) := by simp
      rw [h, String.get_of_valid]
      rfl
    simp only [hget1, hget2, hlt, if_pos, beq_self_eq_true, Bool.true_and]
    have hpos : (⟨String.utf8Len cs⟩ : String.Pos) + c = ⟨String.utf8Len (cs ++ [c])⟩ := by
      simp only [String.Pos.ext_iff, String.Pos.addChar_eq, String.utf8Len_append,
        String.utf8Len_cons, String.utf8Len_nil]
      omega
    have hstop : (⟨String.utf8Len cs + String.utf8Len (c :: rest)⟩ : String.Pos)
        = ⟨String.utf8Len (cs ++ [c]) + String.utf8Len rest⟩ := by
      simp only [String.Pos.ext_iff, String.utf8Len_append, String.utf8Len_cons,
        String.utf8Len_nil]
      omega
    have harr : (⟨cs ++ ((c :: rest) ++ t1)⟩ : String) = ⟨(cs ++ [c]) ++ (rest ++ t1)⟩ := by
      simp
    have harr2 : (⟨cs ++ ((c :: rest) ++ t2)⟩ : String) = ⟨(cs ++ [c]) ++ (rest ++ t2)⟩ := by
      simp
    rw [harr, harr2, hpos, hstop]
    exact ih (cs ++ [c]) t1 t2

theorem startsWith_append_left (p s : String) : (p ++ s).startsWith p = true := by
  obtain ⟨pd⟩ := p
  obtain ⟨sd⟩ := s
  have happ : (⟨pd⟩ ++ ⟨sd⟩ : String) = ⟨pd ++ sd⟩ := rfl
  rw [happ]
  have hv := String.validFor_toSubstring (⟨pd ++ sd⟩ : String)
  have ht := hv.take (String.length ⟨pd⟩)
  have hlen : String.length (⟨pd⟩ : String) = pd.length := rfl
  rw [hlen] at ht
  simp only [List.take_left, List.drop_left, List.append_nil] at ht
  rw [String.startsWith, hlen]
  have hbeq : ∀ ss : Substring, Substring.ValidFor [] pd sd ss →
      (ss == (⟨pd⟩ : String).toSubstring) = true := by
    intro ss hss
    show Substring.beq ss _ = true
    rw [Substring.beq]
    have h1 := hss.str
    have h2 := hss.startPos
    have h3 := hss.bsize
    simp only [List.nil_append] at h1 h2 h3
    rw [h1, h2, h3]
    have hpb : ((⟨pd⟩ : String).toSubstring).bsize = String.utf8Len pd := by
      simp [String.toSubstring, Substring.bsize]
    rw [hpb]
    simp only [beq_self_eq_true, Bool.true_and, String.toSubstring]
    rw [String.substrEq]
    have hbound1 : (0 : Nat) + String.utf8Len pd ≤ (⟨pd ++ sd⟩ : String).endPos.byteIdx := by
      simp [String.endPos_eq, String.utf8Len_append]
    have hbound2 : (0 : Nat) + String.utf8Len pd ≤ (⟨pd⟩ : String).endPos.byteIdx := by
      simp [String.endPos_eq]
    have hloop := substrEq_loop_common pd [] sd []
    simp only [List.nil_append, List.append_nil, String.utf8Len_nil, Nat.zero_add] at hloop
    simp only [String.utf8Len_nil] at *
    simp [hbound1, hbound2]
    exact hloop
  exact hbeq _ ht

theorem bearer_drop (s : String) : ("Bearer " ++ s).drop 7 = s := by
  rw [String.drop_eq]
  simp [String.data_append]

/-- The dispatch gate applied to a well-formed bearer header is exactly the
token scan on the part after the Bearer prefix. -/
theorem getSessionFromRequest_bearer (sessions : List (String × OAuthSession)) (t : String) :
    getSessionFromRequest sessions (some ("Bearer " ++ t)) = resolveAccessToken sessions t := by
  rw [getSessionFromRequest, startsWith_append_left, bearer_drop]
  simp

-- ==================== Claim theorems ====================

/-- C3: every operation classified as destructive in the catalog (table, field,
record-set, file and directory-user deletion) fails with the fixed
not-confirmed error when the confirm argument is absent or false, performing no
backend collaborator call at all; this holds in the remote executeTool and in
the local variant, whichever carries the operation. -/
theorem c3_confirmation_guard (name : String) (args : ToolArgs)
    (hc : args.confirm ≠ some true) :
    (name ∈ destructiveToolsRemote →
      executeToolRemote name args = ⟨[], .error notConfirmedMsg⟩)
    ∧ (name ∈ destructiveToolsLocal →
      executeToolLocal name args = ⟨[], .error notConfirmedMsg⟩) := by
  constructor
  · intro hmem
    simp only [destructiveToolsRemote, List.mem_cons, List.not_mem_nil, or_false] at hmem
    rcases hmem with rfl | rfl | rfl | rfl <;> simp [executeToolRemote, hc]
  · intro hmem
    simp only [destructiveToolsLocal, destructiveToolsRemote, List.mem_append,
      List.mem_cons, List.not_mem_nil, or_false] at hmem
    rcases hmem with (rfl | rfl | rfl | rfl) | rfl <;> simp [executeToolLocal, hc]

/-- C3 witness: the guard fires concretely for table deletion in the remote
catalog and for directory-user deletion in the local one, with confirm
absent. -/
theorem c3_confirmation_guard_witness :
    ({} : ToolArgs).confirm ≠ some true
    ∧ executeToolRemote "caspio_delete_table" {} = ⟨[], .error notConfirmedMsg⟩
    ∧ executeToolLocal "caspio_delete_directory_user" {} = ⟨[], .error notConfirmedMsg⟩ :=
  ⟨by decide,
   (c3_confirmation_guard "caspio_delete_table" {} (by decide)).1 (by decide),
   (c3_confirmation_guard "caspio_delete_directory_user" {} (by decide)).2 (by decide)⟩

/-- C6 counterexample: an authorize request lacking redirect_uri but whose
response_type is also not the literal code is answered with
unsupported_response_type, not with invalid_request; the response_type check
runs first. -/
theorem c6_counterexample :
    (handleAuthorize ⟨[], [], []⟩ none none none none none none "a1" 0).1
        = AuthorizeResult.unsupportedResponseType
    ∧ AuthorizeResult.unsupportedResponseType ≠ AuthorizeResult.invalidRequest := by
  decide

/-- C6 (amended): an authorize request with response_type equal to code and no
usable redirect_uri yields invalid_request and leaves the whole state
unchanged; and any authorize request lacking redirect_uri, whatever its
response_type, never creates a pending record. -/
theorem c6_amended (st : ServerState)
    (responseType clientId redirectUri state codeChallenge codeChallengeMethod : Option String)
    (freshAuthId : String) (now : Nat) (hru : strFalsy redirectUri = true) :
    (responseType = some "code" →
      handleAuthorize st responseType clientId redirectUri state codeChallenge
        codeChallengeMethod freshAuthId now = (.invalidRequest, st))
    ∧ (handleAuthorize st responseType clientId redirectUri state codeChallenge
        codeChallengeMethod freshAuthId now).2 = st := by
  constructor
  · intro hrt
    subst hrt
    simp [handleAuthorize, hru]
  · by_cases hrt : responseType = some "code"
    · subst hrt
      simp [handleAuthorize, hru]
    · simp [handleAuthorize, hrt]

/-- C6 witness: the amended statement at a concrete request missing
redirect_uri with response_type equal to code. -/
theorem c6_amended_witness :
    strFalsy none = true
    ∧ handleAuthorize ⟨[], [], []⟩ (some "code") none none none none none "a1" 0
        = (.invalidRequest, ⟨[], [], []⟩) :=
  ⟨by decide,
   (c6_amended ⟨[], [], []⟩ (some "code") none none none none none "a1" 0 (by decide)).1 rfl⟩

/-- Decoding after encoding restores a session record unchanged. -/
theorem decodeSession_encodeSession (s : OAuthSession) :
    decodeSession (encodeSession s) = some s := rfl

/-- C7: persisting the session store and reloading the resulting document at
time now yields exactly the non-expired entries (those with expiresAt strictly
greater than now), each record unchanged: the save-then-load round trip equals
the non-expiry filter, hence is the identity on non-expired sessions. -/
theorem c7_save_load_round_trip (sessions : List (String × OAuthSession)) (now : Nat) :
    loadSessions (saveSessions sessions) now
      = sessions.filter (fun p => p.2.expiresAt > now) := by
  induction sessions with
  | nil => rfl
  | cons p rest ih =>
    simp only [saveSessions, loadSessions, List.map_cons, List.filterMap_cons,
      List.filter_cons] at ih ⊢
    rw [decodeSession_encodeSession]
    by_cases h : p.2.expiresAt > now
    · simp [h] at ih ⊢
      exact ih
    · simp [h] at ih ⊢
      exact ih

/-- C8: the token endpoint is blind to the code_verifier parameter: two token
requests identical except for their code_verifier values (present or absent)
produce the same response and the same successor state, because the stored
PKCE challenge is never compared against the verifier. -/
theorem c8_code_verifier_ignored (st : ServerState)
    (grantType code cv1 cv2 refreshTokenParam : Option String)
    (now : Nat) (fresh1 fresh2 : String) :
    handleToken st grantType code cv1 refreshTokenParam now fresh1 fresh2
      = handleToken st grantType code cv2 refreshTokenParam now fresh1 fresh2 := rfl

/-- C9: when the backend collaborator invocation behind an authenticated
protocol call throws, the caller still receives the HTTP 200 JSON-RPC envelope
carrying an error object with the fixed internal-error code, preserving the
request id; the response is not a transport-level fault, and the internals of
the thrown error (stack and details beyond the message) never influence the
response. -/
theorem c9_collaborator_exception_enveloped (st : ServerState) (authHeader : Option String)
    (id m : String) (e : ThrownValue)
    (hm : m ∉ unauthenticatedMethods)
    (hs : (getSessionFromRequest st.sessions authHeader).isSome = true) :
    handleMcpRequest st authHeader (.request id m) (.error e)
        = .rpcError id (-32603) (thrownMessage e)
    ∧ statusOf (handleMcpRequest st authHeader (.request id m) (.error e)) = 200
    ∧ ∀ (msg i1 i2 : String),
        handleMcpRequest st authHeader (.request id m) (.error (.errorObj msg i1))
          = handleMcpRequest st authHeader (.request id m) (.error (.errorObj msg i2)) := by
  obtain ⟨s, hsess⟩ := Option.isSome_iff_exists.mp hs
  have hmain : ∀ e' : ThrownValue,
      handleMcpRequest st authHeader (.request id m) (.error e')
        = .rpcError id (-32603) (thrownMessage e') := by
    intro e'
    simp only [handleMcpRequest, hsess]
    simp [hm]
  refine ⟨hmain e, ?_, fun msg i1 i2 => by rw [hmain, hmain]; rfl⟩
  rw [hmain e]
  rfl

/-- C9 witness: a concrete authenticated tools call whose collaborator throws a
Caspio error is answered with the 200 envelope carrying code -32603. -/
theorem c9_collaborator_exception_enveloped_witness :
    handleMcpRequest
        ⟨[("s1", { caspioBaseUrl := "https://acc.caspio.com", caspioClientId := "cid",
                   caspioClientSecret := "sec", accessToken := "T", refreshToken := "R",
                   expiresAt := 86400000, createdAt := 0 })], [], []⟩
        (some ("Bearer " ++ "T")) (.request "1" "tools/call")
        (.error (.errorObj "Caspio API error (500)" "stacktrace"))
      = .rpcError "1" (-32603) "Caspio API error (500)" :=
  (c9_collaborator_exception_enveloped
    ⟨[("s1", { caspioBaseUrl := "https://acc.caspio.com", caspioClientId := "cid",
               caspioClientSecret := "sec", accessToken := "T", refreshToken := "R",
               expiresAt := 86400000, createdAt := 0 })], [], []⟩
    (some ("Bearer " ++ "T")) "1" "tools/call"
    (.errorObj "Caspio API error (500)" "stacktrace")
    (by decide)
    (by rw [getSessionFromRequest_bearer]; decide)).1

/-- C10: starting from the empty state, one authorize request followed by one
successful credential submission reaches a state whose freshly created session
still carries the empty access token; a request whose authorization header is
the bare Bearer prefix (empty token) resolves that session at the dispatch
gate, and an authenticated protocol method invoked with that header passes the
authentication gate instead of being answered 401. -/
theorem c10_empty_token_resolves :
    ((getSessionFromRequest
        ((handleAuthorizeSubmit
          ((handleAuthorize ⟨[], [], []⟩ (some "code") none
            (some "https://client.example/cb") (some "xyz") (some "abc") (some "S256")
            "a1" 0).2)
          (some "a1") (some "https://acc.caspio.com") (some "cid") (some "sec")
          .connected "c1" "s1" 5).2).sessions
        (some "Bearer ")).map (fun s => s.accessToken) = some "")
    ∧ handleMcpRequest
        ((handleAuthorizeSubmit
          ((handleAuthorize ⟨[], [], []⟩ (some "code") none
            (some "https://client.example/cb") (some "xyz") (some "abc") (some "S256")
            "a1" 0).2)
          (some "a1") (some "https://acc.caspio.com") (some "cid") (some "sec")
          .connected "c1" "s1" 5).2)
        (some "Bearer ") (.request "1" "tools/call") (.ok ())
        = .okResult "1" := by
  have h7 : ("Bearer " : String) = "Bearer " ++ "" := rfl
  constructor
  · rw [h7, getSessionFromRequest_bearer]
    decide
  · have hg : getSessionFromRequest
        ((handleAuthorizeSubmit
          ((handleAuthorize ⟨[], [], []⟩ (some "code") none
            (some "https://client.example/cb") (some "xyz") (some "abc") (some "S256")
            "a1" 0).2)
          (some "a1") (some "https://acc.caspio.com") (some "cid") (some "sec")
          .connected "c1" "s1" 5).2).sessions (some "Bearer ")
        = some { caspioBaseUrl := "https://acc.caspio.com", caspioClientId := "cid",
                 caspioClientSecret := "sec", accessToken := "", refreshToken := "",
                 expiresAt := 86400005, createdAt := 5 } := by
      rw [h7, getSessionFromRequest_bearer]
      decide
    simp only [handleMcpRequest, hg]
    simp [unauthenticatedMethods]

/-- C5: a submission whose live credential check does not come back connected,
whether the test resolved false or threw, re-renders the form with an error and
changes nothing: no session, no code, and the pending record is left exactly as
it was; until its 10-minute TTL elapses the janitor keeps it, so it stays
redeemable for further attempts. -/
theorem c5_failed_credential_check (st : ServerState) (aid burl cid csec : String)
    (pending0 : PendingAuth) (conn : ConnResult) (fc fs : String) (t0 : Nat)
    (ha : aid ≠ "") (hp : List.lookup aid st.pendingAuths = some pending0)
    (hb : stripTrailingSlash burl ≠ "") (hc : cid ≠ "") (hs : csec ≠ "")
    (hconn : conn ≠ ConnResult.connected) :
    (∃ msg, handleAuthorizeSubmit st (some aid) (some burl) (some cid) (some csec)
        conn fc fs t0 = (.formError aid msg, st))
    ∧ ∀ t, ¬ pending0.createdAt + 600000 < t →
        List.lookup aid (janitorSweep st t).pendingAuths = some pending0 := by
  constructor
  · cases conn with
    | connected => exact absurd rfl hconn
    | notConnected =>
      refine ⟨"Failed to connect to Caspio. Please check your credentials.", ?_⟩
      simp [handleAuthorizeSubmit, hp, ha, strFalsy, hb, hc, hs]
    | threw msg =>
      refine ⟨"Connection failed: " ++ msg, ?_⟩
      simp [handleAuthorizeSubmit, hp, ha, strFalsy, hb, hc, hs]
  · intro t ht
    simp only [janitorSweep]
    exact lookup_filter_of_kept hp (by simp [ht])

/-- C5 witness: a concrete submission with valid-looking fields whose
connection test resolves false leaves the one-entry pending registry and the
empty session and code registries untouched. -/
theorem c5_failed_credential_check_witness :
    (∃ msg, handleAuthorizeSubmit
        ⟨[], [("a1", { codeChallenge := "abc", codeChallengeMethod := "S256",
                       redirectUri := "https://client.example/cb", state := "xyz",
                       createdAt := 0 })], []⟩
        (some "a1") (some "https://acc.caspio.com") (some "cid") (some "sec")
        .notConnected "c1" "s1" 5
        = (.formError "a1" msg,
           ⟨[], [("a1", { codeChallenge := "abc", codeChallengeMethod := "S256",
                          redirectUri := "https://client.example/cb", state := "xyz",
                          createdAt := 0 })], []⟩))
    ∧ ∀ t, ¬ (0 : Nat) + 600000 < t →
        List.lookup "a1" (janitorSweep
          ⟨[], [("a1", { codeChallenge := "abc", codeChallengeMethod := "S256",
                         redirectUri := "https://client.example/cb", state := "xyz",
                         createdAt := 0 })], []⟩ t).pendingAuths
          = some { codeChallenge := "abc", codeChallengeMethod := "S256",
                   redirectUri := "https://client.example/cb", state := "xyz",
                   createdAt := 0 } :=
  c5_failed_credential_check
    ⟨[], [("a1", { codeChallenge := "abc", codeChallengeMethod := "S256",
                   redirectUri := "https://client.example/cb", state := "xyz",
                   createdAt := 0 })], []⟩
    "a1" "https://acc.caspio.com" "cid" "sec"
    { codeChallenge := "abc", codeChallengeMethod := "S256",
      redirectUri := "https://client.example/cb", state := "xyz", createdAt := 0 }
    .notConnected "c1" "s1" 5
    (by decide) (by decide) (by decide) (by decide) (by decide) (by decide)

/-- A successful submission in explicit form: the created session with unset
tokens, the minted code with its 10-minute expiry, and the deleted pending
record. -/
theorem handleAuthorizeSubmit_success (st : ServerState) (aid burl cid csec : String)
    (pending0 : PendingAuth) (fc fs : String) (t0 : Nat)
    (ha : aid ≠ "") (hp : List.lookup aid st.pendingAuths = some pending0)
    (hb : stripTrailingSlash burl ≠ "") (hc : cid ≠ "") (hs : csec ≠ "") :
    handleAuthorizeSubmit st (some aid) (some burl) (some cid) (some csec)
        .connected fc fs t0
      = (.redirect pending0.redirectUri fc
           (if pending0.state ≠ "" then some pending0.state else none),
         { sessions := mapSet st.sessions fs
             { caspioBaseUrl := stripTrailingSlash burl, caspioClientId := cid,
               caspioClientSecret := csec, accessToken := "", refreshToken := "",
               expiresAt := t0 + 86400000, createdAt := t0 },
           pendingAuths := mapDelete (mapSet st.pendingAuths aid
             { pending0 with
               caspioBaseUrl := some (stripTrailingSlash burl),
               caspioClientId := some cid,
               caspioClientSecret := some csec }) aid,
           authCodes := mapSet st.authCodes fc ⟨fs, t0 + 600000⟩ }) := by
  simp [handleAuthorizeSubmit, hp, ha, strFalsy, hb, hc, hs]

/-- C1: authorization codes are strictly single-use. For a code minted by a
successful submission, a first token request with grant_type authorization_code
presenting that code, made within the code TTL, succeeds with the token
response and deletes the code from the registry; any second token request
presenting the same code, at any time, with any verifier, is answered
invalid_grant and changes nothing. -/
theorem c1_code_single_use (st : ServerState) (aid burl cid csec : String)
    (pending0 : PendingAuth) (fc fs : String) (t0 t1 : Nat)
    (cv1 rtp1 : Option String) (f1 f2 : String)
    (ha : aid ≠ "") (hp : List.lookup aid st.pendingAuths = some pending0)
    (hb : stripTrailingSlash burl ≠ "") (hc : cid ≠ "") (hs : csec ≠ "")
    (hfc : fc ≠ "") (ht1 : ¬ t0 + 600000 < t1) :
    ∃ st2 : ServerState,
      handleToken (handleAuthorizeSubmit st (some aid) (some burl) (some cid) (some csec)
          .connected fc fs t0).2
          (some "authorization_code") (some fc) cv1 rtp1 t1 f1 f2
        = (.ok f1 "Bearer" 86400 f2 "caspio:read caspio:write caspio:admin", st2)
      ∧ List.lookup fc st2.authCodes = none
      ∧ ∀ (cv2 rtp2 : Option String) (t2 : Nat) (g1 g2 : String),
          handleToken st2 (some "authorization_code") (some fc) cv2 rtp2 t2 g1 g2
            = (.invalidGrant "Invalid or expired code", st2) := by
  rw [handleAuthorizeSubmit_success st aid burl cid csec pending0 fc fs t0 ha hp hb hc hs]
  set session1 : OAuthSession :=
    { caspioBaseUrl := stripTrailingSlash burl, caspioClientId := cid,
      caspioClientSecret := csec, accessToken := "", refreshToken := "",
      expiresAt := t0 + 86400000, createdAt := t0 } with hsession1
  set st1 : ServerState :=
    { sessions := mapSet st.sessions fs session1,
      pendingAuths := mapDelete (mapSet st.pendingAuths aid
        { pending0 with
          caspioBaseUrl := some (stripTrailingSlash burl),
          caspioClientId := some cid,
          caspioClientSecret := some csec }) aid,
      authCodes := mapSet st.authCodes fc ⟨fs, t0 + 600000⟩ } with hst1
  have hcode : List.lookup fc st1.authCodes = some ⟨fs, t0 + 600000⟩ := by
    rw [hst1]
    exact lookup_mapSet_self _ _ _
  have hsess : List.lookup fs st1.sessions = some session1 := by
    rw [hst1]
    exact lookup_mapSet_self _ _ _
  have hfirst : handleToken st1 (some "authorization_code") (some fc) cv1 rtp1 t1 f1 f2
      = (.ok f1 "Bearer" 86400 f2 "caspio:read caspio:write caspio:admin",
         { st1 with
           sessions := mapSet st1.sessions fs
             { session1 with
               accessToken := f1, refreshToken := f2, expiresAt := t1 + 86400000 },
           authCodes := mapDelete st1.authCodes fc }) := by
    simp [handleToken, hfc, hcode, ht1, hsess]
  refine ⟨_, hfirst, ?_, ?_⟩
  · exact lookup_mapDelete_self _ _
  · intro cv2 rtp2 t2 g1 g2
    have hnone : List.lookup fc (mapDelete st1.authCodes fc) = none :=
      lookup_mapDelete_self _ _
    simp [handleToken, hfc, hnone]

/-- C1 witness: the concrete flow of the spec scenario, redeeming code c1 once
at time 10 succeeds and a second redemption is invalid_grant. -/
theorem c1_code_single_use_witness :
    ∃ st2 : ServerState,
      handleToken (handleAuthorizeSubmit
          ⟨[], [("a1", { codeChallenge := "abc", codeChallengeMethod := "S256",
                         redirectUri := "https://client.example/cb", state := "xyz",
                         createdAt := 0 })], []⟩
          (some "a1") (some "https://acc.caspio.com") (some "cid") (some "sec")
          .connected "c1" "s1" 5).2
          (some "authorization_code") (some "c1") none none 10 "A1" "R1"
        = (.ok "A1" "Bearer" 86400 "R1" "caspio:read caspio:write caspio:admin", st2)
      ∧ List.lookup "c1" st2.authCodes = none
      ∧ ∀ (cv2 rtp2 : Option String) (t2 : Nat) (g1 g2 : String),
          handleToken st2 (some "authorization_code") (some "c1") cv2 rtp2 t2 g1 g2
            = (.invalidGrant "Invalid or expired code", st2) :=
  c1_code_single_use
    ⟨[], [("a1", { codeChallenge := "abc", codeChallengeMethod := "S256",
                   redirectUri := "https://client.example/cb", state := "xyz",
                   createdAt := 0 })], []⟩
    "a1" "https://acc.caspio.com" "cid" "sec"
    { codeChallenge := "abc", codeChallengeMethod := "S256",
      redirectUri := "https://client.example/cb", state := "xyz", createdAt := 0 }
    "c1" "s1" 5 10 none none "A1" "R1"
    (by decide) (by decide) (by decide) (by decide) (by decide) (by decide) (by decide)

/-- C2: a successful refresh_token grant rotates both tokens. Under the
uniqueness the store maintains (no other session carries the same access or
refresh token) and freshness of the newly minted values, after the refresh
response the prior access token no longer resolves any session at the dispatch
gate, and a token request presenting the prior refresh token is answered
invalid_grant. -/
theorem c2_refresh_rotates_both (st : ServerState) (rt sid : String) (s : OAuthSession)
    (cv : Option String) (now : Nat) (f1 f2 : String)
    (hnd : (st.sessions.map Prod.fst).Nodup)
    (hfind : findSessionByRefreshToken st.sessions rt = some (sid, s))
    (hrt : rt ≠ "")
    (hA : ∀ p ∈ st.sessions, p.1 ≠ sid → p.2.accessToken ≠ s.accessToken)
    (hR : ∀ p ∈ st.sessions, p.1 ≠ sid → p.2.refreshToken ≠ rt)
    (hf1 : f1 ≠ s.accessToken) (hf2 : f2 ≠ rt) :
    ∃ st2 : ServerState,
      handleToken st (some "refresh_token") none cv (some rt) now f1 f2
        = (.ok f1 "Bearer" 86400 f2 "caspio:read caspio:write caspio:admin", st2)
      ∧ getSessionFromRequest st2.sessions (some ("Bearer " ++ s.accessToken)) = none
      ∧ ∀ (cv2 : Option String) (now2 : Nat) (g1 g2 : String),
          (handleToken st2 (some "refresh_token") none cv2 (some rt) now2 g1 g2).1
            = .invalidGrant "Invalid refresh token" := by
  set session' : OAuthSession :=
    { s with accessToken := f1, refreshToken := f2, expiresAt := now + 86400000 }
    with hsession
  have hfirst : handleToken st (some "refresh_token") none cv (some rt) now f1 f2
      = (.ok f1 "Bearer" 86400 f2 "caspio:read caspio:write caspio:admin",
         { st with sessions := mapSet st.sessions sid session' }) := by
    simp [handleToken, hrt, hfind, hsession]
  have hmem : ∀ p ∈ mapSet st.sessions sid session',
      p = (sid, session') ∨ (p ∈ st.sessions ∧ p.1 ≠ sid) :=
    fun p hp => mem_mapSet_of_keysNodup hnd hp
  have hgate : getSessionFromRequest (mapSet st.sessions sid session')
      (some ("Bearer " ++ s.accessToken)) = none := by
    rw [getSessionFromRequest_bearer]
    have hfind2 : (mapSet st.sessions sid session').find?
        (fun p => p.2.accessToken = s.accessToken) = none := by
      rw [List.find?_eq_none]
      intro p hp
      rcases hmem p hp with rfl | ⟨hpm, hpk⟩
      · simpa [hsession] using hf1
      · simpa using hA p hpm hpk
    simp [resolveAccessToken, hfind2]
  have hsecond : findSessionByRefreshToken (mapSet st.sessions sid session') rt = none := by
    rw [findSessionByRefreshToken, List.find?_eq_none]
    intro p hp
    rcases hmem p hp with rfl | ⟨hpm, hpk⟩
    · simpa [hsession] using fun h => hf2 h
    · simpa using fun h => hR p hpm hpk h
  refine ⟨_, hfirst, hgate, ?_⟩
  intro cv2 now2 g1 g2
  simp [handleToken, hrt, hsecond]

/-- C2 witness: rotating the only session of a one-session store with refresh
token R invalidates access token A at the gate and refresh token R at the
token endpoint. -/
theorem c2_refresh_rotates_both_witness :
    ∃ st2 : ServerState,
      handleToken
          ⟨[("s1", { caspioBaseUrl := "https://acc.caspio.com", caspioClientId := "cid",
                     caspioClientSecret := "sec", accessToken := "A", refreshToken := "R",
                     expiresAt := 86400000, createdAt := 0 })], [], []⟩
          (some "refresh_token") none none (some "R") 1000 "X" "Y"
        = (.ok "X" "Bearer" 86400 "Y" "caspio:read caspio:write caspio:admin", st2)
      ∧ getSessionFromRequest st2.sessions (some ("Bearer " ++ "A")) = none
      ∧ ∀ (cv2 : Option String) (now2 : Nat) (g1 g2 : String),
          (handleToken st2 (some "refresh_token") none cv2 (some "R") now2 g1 g2).1
            = .invalidGrant "Invalid refresh token" :=
  c2_refresh_rotates_both
    ⟨[("s1", { caspioBaseUrl := "https://acc.caspio.com", caspioClientId := "cid",
               caspioClientSecret := "sec", accessToken := "A", refreshToken := "R",
               expiresAt := 86400000, createdAt := 0 })], [], []⟩
    "R" "s1"
    { caspioBaseUrl := "https://acc.caspio.com", caspioClientId := "cid",
      caspioClientSecret := "sec", accessToken := "A", refreshToken := "R",
      expiresAt := 86400000, createdAt := 0 }
    none 1000 "X" "Y"
    (by decide) (by decide) (by decide)
    (by intro p hp hk; fin_cases hp <;> simp_all)
    (by intro p hp hk; fin_cases hp <;> simp_all)
    (by decide) (by decide)

/-- C4 counterexample: access tokens are not unique among all live sessions.
From the empty state, two authorize-and-submit rounds whose token exchanges
have not happened yet produce two simultaneously live sessions that both carry
the empty-string access token placeholder. -/
theorem c4_counterexample :
    ¬ UniqueTokensClaimed
      (applyOp (applyOp (applyOp (applyOp ⟨[], [], []⟩
        (.authorizeOp (some "code") none (some "https://client.example/cb") (some "x1")
          none none "a1" 0))
        (.submitOp (some "a1") (some "https://acc1.caspio.com") (some "cid1") (some "sec1")
          .connected "c1" "s1" 1))
        (.authorizeOp (some "code") none (some "https://client.example/cb") (some "x2")
          none none "a2" 2))
        (.submitOp (some "a2") (some "https://acc2.caspio.com") (some "cid2") (some "sec2")
          .connected "c2" "s2" 3)).sessions := by
  unfold UniqueTokensClaimed
  decide

/-- C4 (amended): at every instant, the access token of each live session that
has completed its token exchange (non-empty token) is unique among all live
sessions: every operation of the subsystem preserves the invariant that two
distinct live sessions agree on their access token only when it is the empty
placeholder of a session awaiting exchange, provided freshly minted tokens
collide with no stored one. -/
theorem c4_amended (st : ServerState) (op : ServerOp)
    (hu : UniqueLiveTokens st.sessions) (hf : opFresh st op) :
    UniqueLiveTokens (applyOp st op).sessions := by
  cases op with
  | authorizeOp rt cid ru s cc ccm fid now =>
    have h : ((handleAuthorize st rt cid ru s cc ccm fid now).2).sessions = st.sessions := by
      simp only [handleAuthorize]
      split_ifs <;> rfl
    simpa [applyOp, h] using hu
  | sweepOp now =>
    exact List.Pairwise.filter _ hu
  | submitOp aid burl cid csec conn fc fs now =>
    simp only [applyOp, handleAuthorizeSubmit]
    repeat' split
    all_goals
      first
        | exact hu
        | (refine pairwise_mapSet hu ?_
           intro p hp
           exact ⟨fun _ => rfl, fun h => h⟩)
  | tokenOp gt c cv rtp now f1 f2 =>
    simp only [applyOp, handleToken]
    repeat' split
    all_goals
      first
        | exact hu
        | (refine pairwise_mapSet hu ?_
           intro p hp
           have hfp := hf p hp
           exact ⟨fun h => absurd h hfp, fun h => absurd h.symm hfp⟩)

/-- C4 witness: rotating the tokens of a one-session store with a fresh access
token preserves the uniqueness invariant. -/
theorem c4_amended_witness :
    UniqueLiveTokens
      (applyOp
        ⟨[("s1", { caspioBaseUrl := "https://acc.caspio.com", caspioClientId := "cid",
                   caspioClientSecret := "sec", accessToken := "A", refreshToken := "R",
                   expiresAt := 86400000, createdAt := 0 })], [], []⟩
        (.tokenOp (some "refresh_token") none none (some "R") 1000 "X" "Y")).sessions :=
  c4_amended
    ⟨[("s1", { caspioBaseUrl := "https://acc.caspio.com", caspioClientId := "cid",
               caspioClientSecret := "sec", accessToken := "A", refreshToken := "R",
               expiresAt := 86400000, createdAt := 0 })], [], []⟩
    (.tokenOp (some "refresh_token") none none (some "R") 1000 "X" "Y")
    (by unfold UniqueLiveTokens; decide)
    (by unfold opFresh; decide)

end CaspioMCP
